import Mathlib

/-!
Verification of the volume-attachment orchestrator (`attachvolume/__init__.py`).

The cloud provider is modelled as an oracle `Nat → List Attachment`: the value
`oracle k` is the attachment list the provider returns to the k-th
`describe_volumes` call made during the invocation.  Each provider- or
host-facing action of the program is recorded as an `Event`, so trace-level
claims (how many detach/attach calls, their order, the sleeps of the polling
loop) become statements about the event list a run produces.  The unbounded
polling loop `volume_state_wait` is modelled with explicit fuel and returns
`none` when the fuel runs out; a `some` result corresponds to an actual
terminating run of the Python loop.
-/

namespace AttachVolume

/-- One entry of a volume's `Attachments` list, with the fields the program
reads: `InstanceId` and `State`. -/
structure Attachment where
  InstanceId : String
  State : String
deriving DecidableEq, Repr

/-- Observable actions of one invocation: provider API calls, sleeps, and
host mount/fstab effects. -/
inductive Event where
  | sleep (duration : Nat)
  | describeCall (volume : String)
  | detachCall (volume : String) (force : Bool)
  | attachCall (volume : String) (instance_id : String) (device : String)
  | mountCall (partition : String) (mount_point : String)
  | fstabAppend (line : String)
deriving DecidableEq, Repr

/-- The provider oracle: `oracle k` is the attachment list returned by the
k-th `describe_volumes` call of the run. -/
abbrev Oracle := Nat → List Attachment

/-- Pure core of `get_volume_state`: empty attachment list means
`"detached"`, otherwise the `State` of the first listed attachment. -/
def stateOf : List Attachment → String
  | [] => "detached"
  | a :: _ => a.State

/-- `get_volume_state(volume)`: one `describe_volumes` call (consuming poll
index `k`), returning the state, the next poll index, and the trace. -/
def get_volume_state (oracle : Oracle) (k : Nat) (volume : String) :
    String × Nat × List Event :=
  (stateOf (oracle k), k + 1, [Event.describeCall volume])

/-- `is_attached(volume_id)`: true iff `get_volume_state` returns
`"attached"`. -/
def is_attached (oracle : Oracle) (k : Nat) (volume_id : String) :
    Bool × Nat × List Event :=
  let r := get_volume_state oracle k volume_id
  (r.1 == "attached", r.2.1, r.2.2)

/-- `is_attached_instance(volume, instance)`: its own `describe_volumes`
call; scans the full attachment list for one whose `InstanceId` matches. -/
def is_attached_instance (oracle : Oracle) (k : Nat)
    (volume : String) (target : String) : Bool × Nat × List Event :=
  ((oracle k).any (fun a => a.InstanceId == target), k + 1,
    [Event.describeCall volume])

/-- `volume_state_wait(volume, desired_state)`: each iteration sleeps 3
units then polls `get_volume_state`, and the loop exits exactly when the
observed state equals `desired_state`.  Fuel bounds the number of
iterations of the (otherwise unbounded) Python loop; `none` means the fuel
ran out before the state was observed. -/
def volume_state_wait (oracle : Oracle) (desired : String) (volume : String) :
    Nat → Nat → Option (Nat × List Event)
  | 0, _ => none
  | fuel + 1, k =>
    let r := get_volume_state oracle k volume
    if r.1 == desired then
      some (r.2.1, Event.sleep 3 :: r.2.2)
    else
      match volume_state_wait oracle desired volume fuel r.2.1 with
      | none => none
      | some (kf, evs) => some (kf, Event.sleep 3 :: r.2.2 ++ evs)

/-- `attach(volume_id, instance_id, device)`: one `attach_volume` call, then
wait for `"attached"`. -/
def attach (oracle : Oracle) (fuel k : Nat)
    (volume_id instance_id device : String) : Option (Nat × List Event) :=
  match volume_state_wait oracle "attached" volume_id fuel k with
  | none => none
  | some (kf, w) =>
    some (kf, Event.attachCall volume_id instance_id device :: w)

/-- `deattach(volume_id)`: one `detach_volume` call with `Force=True`, then
wait for `"detached"`. -/
def deattach (oracle : Oracle) (fuel k : Nat) (volume_id : String) :
    Option (Nat × List Event) :=
  match volume_state_wait oracle "detached" volume_id fuel k with
  | none => none
  | some (kf, w) => some (kf, Event.detachCall volume_id true :: w)

/-- The fixed-format line `fstab` appends (the f-string of the source). -/
def fstab_line (partition mount_point fstype : String) : String :=
  s!"UUID={partition}     {mount_point}     {fstype}     defaults,noatime 1 1\n"

/-- `fstab(partition, mount_point, fstype)`: append one formatted line to the
mount table (modelled as the list of its lines). -/
def fstab (table : List String) (partition mount_point fstype : String) :
    List String :=
  table ++ [fstab_line partition mount_point fstype]

/-- Parsed command-line arguments (the argparse `dest` names; `instance` is a
Lean keyword, so that field is called `instance_id`). -/
structure Args where
  volume : String
  force : Bool
  device : String
  instance_id : String
  partition : String
  mount_point : String
  fstab : Bool
  fs_type : String
deriving DecidableEq, Repr

/-- The tail of `main` after a successful attach: mount only when both a
partition UUID and a mount point were supplied (Python truthiness of the
strings), and append to fstab only when additionally `--fstab` was given. -/
def mount_tail (args : Args) : List Event :=
  if args.partition != "" && args.mount_point != "" then
    Event.mountCall args.partition args.mount_point ::
      (if args.fstab then
        [Event.fstabAppend
          (fstab_line args.partition args.mount_point args.fs_type)]
      else [])
  else []

/-- `main()`: the orchestration.  Returns the process exit code and the
event trace, or `none` if a wait loop ran out of fuel. -/
def main (oracle : Oracle) (fuel : Nat) (args : Args) :
    Option (Nat × List Event) :=
  let ia := is_attached oracle 0 args.volume
  if ia.1 then
    if !args.force then
      some (1, ia.2.2)
    else
      let iai := is_attached_instance oracle ia.2.1 args.volume args.instance_id
      if iai.1 then
        some (0, ia.2.2 ++ iai.2.2)
      else
        match deattach oracle fuel iai.2.1 args.volume with
        | none => none
        | some (k3, dEvs) =>
          match attach oracle fuel k3 args.volume args.instance_id args.device with
          | none => none
          | some (_, aEvs) =>
            some (0, ia.2.2 ++ iai.2.2 ++ dEvs ++ aEvs ++ mount_tail args)
  else
    match attach oracle fuel ia.2.1 args.volume args.instance_id args.device with
    | none => none
    | some (_, aEvs) => some (0, ia.2.2 ++ aEvs ++ mount_tail args)

/-- The trace of `n` iterations of the polling loop on `volume`: each
iteration is a 3-unit sleep followed by one describe call. -/
def sleep_poll_trace (volume : String) : Nat → List Event
  | 0 => []
  | n + 1 => Event.sleep 3 :: Event.describeCall volume :: sleep_poll_trace volume n

/-- Is this event a `detach_volume` call? -/
def is_detach_event : Event → Bool
  | .detachCall _ _ => true
  | _ => false

/-- Is this event an `attach_volume` call? -/
def is_attach_event : Event → Bool
  | .attachCall _ _ _ => true
  | _ => false

/-- Number of `detach_volume` calls in a trace. -/
def countDetach (evs : List Event) : Nat := evs.countP is_detach_event

/-- Number of `attach_volume` calls in a trace. -/
def countAttach (evs : List Event) : Nat := evs.countP is_attach_event

/-! ### Helper lemmas about the polling loop and traces -/

theorem wait_spec (oracle : Oracle) (desired volume : String) :
    ∀ (fuel k kf : Nat) (evs : List Event),
      volume_state_wait oracle desired volume fuel k = some (kf, evs) →
      k < kf ∧ stateOf (oracle (kf - 1)) = desired ∧
        (∀ j, k ≤ j → j + 1 < kf → stateOf (oracle j) ≠ desired) ∧
        evs = sleep_poll_trace volume (kf - k) := by
  intro fuel
  induction fuel with
  | zero => intro k kf evs h; simp [volume_state_wait] at h
  | succ fuel ih =>
    intro k kf evs h
    rw [volume_state_wait] at h
    simp only [get_volume_state] at h
    by_cases hd : (stateOf (oracle k) == desired) = true
    · rw [if_pos hd] at h
      simp only [Option.some.injEq, Prod.mk.injEq] at h
      obtain ⟨hk, hevs⟩ := h
      subst hk
      refine ⟨Nat.lt_succ_self k, by simpa using beq_iff_eq.mp hd, ?_, ?_⟩
      · intro j hkj hj1
        omega
      · simp [← hevs, sleep_poll_trace]
    · rw [if_neg hd] at h
      rcases hrec : volume_state_wait oracle desired volume fuel (k + 1) with _ | ⟨kf', evs'⟩ <;>
        rw [hrec] at h
      · exact absurd h (by simp)
      · simp only [Option.some.injEq, Prod.mk.injEq] at h
        obtain ⟨hk, hevs⟩ := h
        obtain ⟨h1, h2, h3, h4⟩ := ih (k + 1) kf' evs' hrec
        subst hk
        refine ⟨Nat.lt_of_succ_lt h1, h2, ?_, ?_⟩
        · intro j hkj hj1
          rcases Nat.eq_or_lt_of_le hkj with heq | hlt
          · subst heq; exact fun hc => hd (by simp [hc])
          · exact h3 j hlt hj1
        · have hsub : kf' - k = (kf' - (k + 1)) + 1 := by omega
          simp [← hevs, h4, hsub, sleep_poll_trace]

theorem sleep_poll_trace_mem (volume : String) :
    ∀ (n : Nat) (e : Event), e ∈ sleep_poll_trace volume n →
      e = Event.sleep 3 ∨ e = Event.describeCall volume := by
  intro n
  induction n with
  | zero => intro e h; simp [sleep_poll_trace] at h
  | succ n ih =>
    intro e h
    simp only [sleep_poll_trace, List.mem_cons] at h
    rcases h with h | h | h
    · exact Or.inl h
    · exact Or.inr h
    · exact ih e h

theorem countP_detach_sleep_poll (volume : String) (n : Nat) :
    List.countP is_detach_event (sleep_poll_trace volume n) = 0 := by
  rw [List.countP_eq_zero]
  intro e he
  rcases sleep_poll_trace_mem volume n e he with h | h <;>
    simp [h, is_detach_event]

theorem countP_attach_sleep_poll (volume : String) (n : Nat) :
    List.countP is_attach_event (sleep_poll_trace volume n) = 0 := by
  rw [List.countP_eq_zero]
  intro e he
  rcases sleep_poll_trace_mem volume n e he with h | h <;>
    simp [h, is_attach_event]

theorem detach_not_in_sleep_poll (volume v : String) (f : Bool) (n : Nat) :
    Event.detachCall v f ∉ sleep_poll_trace volume n := by
  intro h
  rcases sleep_poll_trace_mem volume n _ h with h' | h' <;> exact absurd h' (by simp)

theorem attach_not_in_sleep_poll (volume v i d : String) (n : Nat) :
    Event.attachCall v i d ∉ sleep_poll_trace volume n := by
  intro h
  rcases sleep_poll_trace_mem volume n _ h with h' | h' <;> exact absurd h' (by simp)

theorem mount_tail_mem (args : Args) (e : Event) (h : e ∈ mount_tail args) :
    (∃ p m, e = Event.mountCall p m) ∨ ∃ l, e = Event.fstabAppend l := by
  unfold mount_tail at h
  by_cases hc : (args.partition != "" && args.mount_point != "") = true
  · rw [if_pos hc] at h
    simp only [List.mem_cons] at h
    rcases h with h | h
    · exact Or.inl ⟨_, _, h⟩
    · by_cases hf : args.fstab = true
      · rw [if_pos hf] at h
        simp only [List.mem_singleton] at h
        exact Or.inr ⟨_, h⟩
      · rw [if_neg hf] at h
        simp at h
  · rw [if_neg hc] at h
    simp at h

theorem countP_detach_mount_tail (args : Args) :
    List.countP is_detach_event (mount_tail args) = 0 := by
  rw [List.countP_eq_zero]
  intro e he
  rcases mount_tail_mem args e he with ⟨p, m, h⟩ | ⟨l, h⟩ <;>
    simp [h, is_detach_event]

theorem countP_attach_mount_tail (args : Args) :
    List.countP is_attach_event (mount_tail args) = 0 := by
  rw [List.countP_eq_zero]
  intro e he
  rcases mount_tail_mem args e he with ⟨p, m, h⟩ | ⟨l, h⟩ <;>
    simp [h, is_attach_event]

theorem detach_not_in_mount_tail (args : Args) (v : String) (f : Bool) :
    Event.detachCall v f ∉ mount_tail args := by
  intro h
  rcases mount_tail_mem args _ h with ⟨p, m, h'⟩ | ⟨l, h'⟩ <;> exact absurd h' (by simp)

theorem attach_not_in_mount_tail (args : Args) (v i d : String) :
    Event.attachCall v i d ∉ mount_tail args := by
  intro h
  rcases mount_tail_mem args _ h with ⟨p, m, h'⟩ | ⟨l, h'⟩ <;> exact absurd h' (by simp)

theorem deattach_eq_some (oracle : Oracle) (fuel k kf : Nat) (v : String)
    (evs : List Event) (h : deattach oracle fuel k v = some (kf, evs)) :
    ∃ w, volume_state_wait oracle "detached" v fuel k = some (kf, w) ∧
      evs = Event.detachCall v true :: w := by
  unfold deattach at h
  rcases hw : volume_state_wait oracle "detached" v fuel k with _ | ⟨kf', w⟩ <;>
    rw [hw] at h
  · exact absurd h (by simp)
  · simp only [Option.some.injEq, Prod.mk.injEq] at h
    obtain ⟨hk, hevs⟩ := h
    subst hk
    exact ⟨w, rfl, hevs.symm⟩

theorem attach_eq_some (oracle : Oracle) (fuel k kf : Nat) (v i d : String)
    (evs : List Event) (h : attach oracle fuel k v i d = some (kf, evs)) :
    ∃ w, volume_state_wait oracle "attached" v fuel k = some (kf, w) ∧
      evs = Event.attachCall v i d :: w := by
  unfold attach at h
  rcases hw : volume_state_wait oracle "attached" v fuel k with _ | ⟨kf', w⟩ <;>
    rw [hw] at h
  · exact absurd h (by simp)
  · simp only [Option.some.injEq, Prod.mk.injEq] at h
    obtain ⟨hk, hevs⟩ := h
    subst hk
    exact ⟨w, rfl, hevs.symm⟩

/-- Inversion on `main`: any terminating run is one of the four branches of
the orchestration — exit 1 (attached, no force), exit 0 no-op (already on the
target instance), forced detach then attach, or fresh attach. -/
theorem main_cases (oracle : Oracle) (fuel : Nat) (args : Args)
    (code : Nat) (evs : List Event)
    (hmain : main oracle fuel args = some (code, evs)) :
    (code = 1 ∧ evs = [Event.describeCall args.volume]) ∨
    (code = 0 ∧
      evs = [Event.describeCall args.volume, Event.describeCall args.volume]) ∨
    (∃ k3 k4 w1 w2,
      volume_state_wait oracle "detached" args.volume fuel 2 = some (k3, w1) ∧
      volume_state_wait oracle "attached" args.volume fuel k3 = some (k4, w2) ∧
      code = 0 ∧
      evs = Event.describeCall args.volume :: Event.describeCall args.volume ::
        Event.detachCall args.volume true ::
          (w1 ++ Event.attachCall args.volume args.instance_id args.device ::
            (w2 ++ mount_tail args))) ∨
    (∃ k4 w,
      volume_state_wait oracle "attached" args.volume fuel 1 = some (k4, w) ∧
      code = 0 ∧
      evs = Event.describeCall args.volume ::
        Event.attachCall args.volume args.instance_id args.device ::
          (w ++ mount_tail args)) := by
  unfold main at hmain
  simp only [is_attached, is_attached_instance, get_volume_state] at hmain
  by_cases hA : (stateOf (oracle 0) == "attached") = true
  · simp only [hA, if_true] at hmain
    by_cases hF : (!args.force) = true
    · simp only [hF, if_true, Option.some.injEq, Prod.mk.injEq] at hmain
      exact Or.inl ⟨hmain.1.symm, hmain.2.symm⟩
    · simp only [hF, Bool.false_eq_true, if_false] at hmain
      by_cases hI : ((oracle (0 + 1)).any
          (fun a => a.InstanceId == args.instance_id)) = true
      · simp only [hI, if_true, Option.some.injEq, Prod.mk.injEq] at hmain
        refine Or.inr (Or.inl ⟨hmain.1.symm, ?_⟩)
        simpa using hmain.2.symm
      · simp only [hI, Bool.false_eq_true, if_false] at hmain
        rcases hdet : deattach oracle fuel (0 + 1 + 1) args.volume with _ | ⟨k3, dEvs⟩ <;>
          rw [hdet] at hmain <;> simp only [] at hmain
        · exact absurd hmain (by simp)
        · rcases hatt : attach oracle fuel k3 args.volume args.instance_id
              args.device with _ | ⟨k4, aEvs⟩ <;> rw [hatt] at hmain
          · exact absurd hmain (by simp)
          · simp only [Option.some.injEq, Prod.mk.injEq] at hmain
            obtain ⟨hw1, hw1eq, hd⟩ := deattach_eq_some oracle fuel _ k3
              args.volume dEvs hdet
            obtain ⟨hw2, hw2eq, ha⟩ := attach_eq_some oracle fuel k3 k4
              args.volume args.instance_id args.device aEvs hatt
            refine Or.inr (Or.inr (Or.inl
              ⟨k3, k4, hw1, hw2, ?_, hw2eq, hmain.1.symm, ?_⟩))
            · simpa using hw1eq
            · rw [← hmain.2, hd, ha]
              simp
  · simp only [hA, Bool.false_eq_true, if_false] at hmain
    rcases hatt : attach oracle fuel (0 + 1) args.volume args.instance_id
        args.device with _ | ⟨k4, aEvs⟩ <;> rw [hatt] at hmain
    · exact absurd hmain (by simp)
    · simp only [Option.some.injEq, Prod.mk.injEq] at hmain
      obtain ⟨w, hw, ha⟩ := attach_eq_some oracle fuel _ k4 args.volume
        args.instance_id args.device aEvs hatt
      refine Or.inr (Or.inr (Or.inr ⟨k4, w, ?_, hmain.1.symm, ?_⟩))
      · simpa using hw
      · rw [← hmain.2, ha]
        simp

/-! ### Claim theorems -/

/-- C2: when the volume is observed `attached` and force is false, `main`
exits with code 1 right after the single initial describe call, so no detach
and no attach call is issued. -/
theorem main_attached_no_force_exits_one (oracle : Oracle) (fuel : Nat)
    (args : Args) (h1 : stateOf (oracle 0) = "attached")
    (h2 : args.force = false) :
    main oracle fuel args = some (1, [Event.describeCall args.volume]) ∧
    countDetach [Event.describeCall args.volume] = 0 ∧
    countAttach [Event.describeCall args.volume] = 0 := by
  refine ⟨?_, rfl, rfl⟩
  unfold main
  simp [is_attached, get_volume_state, h1, h2]

/-- Witness for C2: a volume attached to `i-2`, force not requested. -/
theorem main_attached_no_force_exits_one_witness :
    stateOf ((fun _ => [Attachment.mk "i-2" "attached"]) 0) = "attached" ∧
    main (fun _ => [Attachment.mk "i-2" "attached"]) 4
        (Args.mk "vol-1" false "/dev/xvdf" "i-1" "" "" false "xfs") =
      some (1, [Event.describeCall "vol-1"]) :=
  ⟨rfl,
   (main_attached_no_force_exits_one (fun _ => [Attachment.mk "i-2" "attached"])
      4 (Args.mk "vol-1" false "/dev/xvdf" "i-1" "" "" false "xfs") rfl rfl).1⟩

/-- C5: with force requested, a volume observed `attached` whose attachment
list contains the target instance makes `main` exit 0 after the two describe
calls, leaving the provider untouched. -/
theorem main_force_already_on_target_noop (oracle : Oracle) (fuel : Nat)
    (args : Args) (h1 : stateOf (oracle 0) = "attached")
    (h2 : args.force = true)
    (h3 : ((oracle 1).any fun a => a.InstanceId == args.instance_id) = true) :
    main oracle fuel args =
      some (0, [Event.describeCall args.volume, Event.describeCall args.volume]) ∧
    countDetach [Event.describeCall args.volume, Event.describeCall args.volume] = 0 ∧
    countAttach [Event.describeCall args.volume, Event.describeCall args.volume] = 0 := by
  refine ⟨?_, rfl, rfl⟩
  unfold main
  simp [is_attached, is_attached_instance, get_volume_state, h1, h2, h3]

/-- Witness for C5: the volume is already attached to the target `i-1`. -/
theorem main_force_already_on_target_noop_witness :
    stateOf ((fun _ => [Attachment.mk "i-1" "attached"]) 0) = "attached" ∧
    (((fun _ => [Attachment.mk "i-1" "attached"] : Oracle) 1).any
      fun a => a.InstanceId == "i-1") = true ∧
    main (fun _ => [Attachment.mk "i-1" "attached"]) 4
        (Args.mk "vol-1" true "/dev/xvdf" "i-1" "" "" false "xfs") =
      some (0, [Event.describeCall "vol-1", Event.describeCall "vol-1"]) :=
  ⟨rfl, rfl,
   (main_force_already_on_target_noop (fun _ => [Attachment.mk "i-1" "attached"])
      4 (Args.mk "vol-1" true "/dev/xvdf" "i-1" "" "" false "xfs")
      rfl rfl rfl).1⟩

/-- C1: with force requested and the volume attached to a different instance,
any terminating run of `main` issues exactly one detach call (Force=true),
blocks until a poll observes `detached`, then issues exactly one attach call
for the same volume to the target instance and device, and blocks until a
poll observes `attached`. -/
theorem main_force_attached_elsewhere_detach_then_attach (oracle : Oracle)
    (fuel : Nat) (args : Args) (code : Nat) (evs : List Event)
    (h1 : stateOf (oracle 0) = "attached") (h2 : args.force = true)
    (h3 : ((oracle 1).any fun a => a.InstanceId == args.instance_id) = false)
    (hmain : main oracle fuel args = some (code, evs)) :
    code = 0 ∧
    ∃ k3 k4 w1 w2,
      volume_state_wait oracle "detached" args.volume fuel 2 = some (k3, w1) ∧
      volume_state_wait oracle "attached" args.volume fuel k3 = some (k4, w2) ∧
      evs = Event.describeCall args.volume :: Event.describeCall args.volume ::
        Event.detachCall args.volume true ::
          (w1 ++ Event.attachCall args.volume args.instance_id args.device ::
            (w2 ++ mount_tail args)) ∧
      stateOf (oracle (k3 - 1)) = "detached" ∧
      stateOf (oracle (k4 - 1)) = "attached" ∧
      countDetach evs = 1 ∧ countAttach evs = 1 := by
  unfold main at hmain
  simp only [is_attached, is_attached_instance, get_volume_state] at hmain
  simp only [h1, h2, h3] at hmain
  simp at hmain
  rcases hdet : deattach oracle fuel 2 args.volume with _ | ⟨k3, dEvs⟩ <;>
    rw [hdet] at hmain <;> simp only [] at hmain
  · exact absurd hmain (by simp)
  · rcases hatt : attach oracle fuel k3 args.volume args.instance_id
        args.device with _ | ⟨k4, aEvs⟩ <;> rw [hatt] at hmain
    · exact absurd hmain (by simp)
    · simp only [Option.some.injEq, Prod.mk.injEq] at hmain
      obtain ⟨w1, hw1eq, hd⟩ := deattach_eq_some oracle fuel 2 k3
        args.volume dEvs hdet
      obtain ⟨w2, hw2eq, ha⟩ := attach_eq_some oracle fuel k3 k4
        args.volume args.instance_id args.device aEvs hatt
      obtain ⟨_, hst1, _, hs1⟩ :=
        wait_spec oracle "detached" args.volume fuel 2 k3 w1 hw1eq
      obtain ⟨_, hst2, _, hs2⟩ :=
        wait_spec oracle "attached" args.volume fuel k3 k4 w2 hw2eq
      have hevs : evs = Event.describeCall args.volume ::
          Event.describeCall args.volume :: Event.detachCall args.volume true ::
            (w1 ++ Event.attachCall args.volume args.instance_id args.device ::
              (w2 ++ mount_tail args)) := by
        rw [← hmain.2, hd, ha]; simp
      refine ⟨hmain.1.symm, k3, k4, w1, w2, hw1eq, hw2eq, hevs, hst1, hst2, ?_, ?_⟩
      · rw [hevs, hs1, hs2]
        simp [countDetach, List.countP_cons, List.countP_append, is_detach_event,
          countP_detach_sleep_poll, countP_detach_mount_tail]
      · rw [hevs, hs1, hs2]
        simp [countAttach, List.countP_cons, List.countP_append, is_attach_event,
          countP_attach_sleep_poll, countP_attach_mount_tail]

/-- The oracle of C1's witness: the volume is attached to `i-2` for the
first two describe calls, detached on the third, attached from the fourth. -/
def oracleC1 : Oracle := fun k =>
  if k ≤ 1 then [Attachment.mk "i-2" "attached"]
  else if k = 2 then []
  else [Attachment.mk "i-1" "attached"]

/-- The arguments of C1's witness: attach `vol-1` to `i-1` with force. -/
def argsC1 : Args := Args.mk "vol-1" true "/dev/xvdf" "i-1" "" "" false "xfs"

/-- The trace of C1's witness run. -/
def trC1 : List Event :=
  [Event.describeCall "vol-1", Event.describeCall "vol-1",
   Event.detachCall "vol-1" true, Event.sleep 3, Event.describeCall "vol-1",
   Event.attachCall "vol-1" "i-1" "/dev/xvdf", Event.sleep 3,
   Event.describeCall "vol-1"]

/-- Witness for C1: a run in which the forced detach succeeds after one poll
and the attach after one more. -/
theorem main_force_attached_elsewhere_detach_then_attach_witness :
    (stateOf (oracleC1 0) = "attached" ∧ argsC1.force = true ∧
      ((oracleC1 1).any fun a => a.InstanceId == argsC1.instance_id) = false ∧
      main oracleC1 6 argsC1 = some (0, trC1)) ∧
    (0 = 0 ∧
      ∃ k3 k4 w1 w2,
        volume_state_wait oracleC1 "detached" "vol-1" 6 2 = some (k3, w1) ∧
        volume_state_wait oracleC1 "attached" "vol-1" 6 k3 = some (k4, w2) ∧
        trC1 = Event.describeCall "vol-1" :: Event.describeCall "vol-1" ::
          Event.detachCall "vol-1" true ::
            (w1 ++ Event.attachCall "vol-1" "i-1" "/dev/xvdf" ::
              (w2 ++ mount_tail argsC1)) ∧
        stateOf (oracleC1 (k3 - 1)) = "detached" ∧
        stateOf (oracleC1 (k4 - 1)) = "attached" ∧
        countDetach trC1 = 1 ∧ countAttach trC1 = 1) :=
  ⟨⟨rfl, rfl, rfl, by decide⟩,
   main_force_attached_elsewhere_detach_then_attach oracleC1 6 argsC1 0 trC1
     rfl rfl rfl (by decide)⟩

/-- C9: when the observed state is anything other than `attached` (such as
`attaching`, `detaching` or `busy`), `is_attached` is false and `main`
issues the attach call immediately after the single describe call — no
detach and no prior wait — regardless of the force flag. -/
theorem main_not_attached_attaches_immediately (oracle : Oracle) (fuel : Nat)
    (args : Args) (code : Nat) (evs : List Event)
    (h1 : stateOf (oracle 0) ≠ "attached")
    (hmain : main oracle fuel args = some (code, evs)) :
    (is_attached oracle 0 args.volume).1 = false ∧ code = 0 ∧
    ∃ k4 w,
      volume_state_wait oracle "attached" args.volume fuel 1 = some (k4, w) ∧
      evs = Event.describeCall args.volume ::
        Event.attachCall args.volume args.instance_id args.device ::
          (w ++ mount_tail args) ∧
      countDetach evs = 0 := by
  have hb : (stateOf (oracle 0) == "attached") = false := by
    simpa using h1
  refine ⟨by simp [is_attached, get_volume_state, hb], ?_⟩
  unfold main at hmain
  simp only [is_attached, get_volume_state] at hmain
  simp only [hb] at hmain
  simp at hmain
  rcases hatt : attach oracle fuel 1 args.volume args.instance_id
      args.device with _ | ⟨k4, aEvs⟩ <;> rw [hatt] at hmain
  · exact absurd hmain (by simp)
  · simp only [Option.some.injEq, Prod.mk.injEq] at hmain
    obtain ⟨w, hw, ha⟩ := attach_eq_some oracle fuel 1 k4 args.volume
      args.instance_id args.device aEvs hatt
    obtain ⟨_, _, _, hs⟩ :=
      wait_spec oracle "attached" args.volume fuel 1 k4 w hw
    have hevs : evs = Event.describeCall args.volume ::
        Event.attachCall args.volume args.instance_id args.device ::
          (w ++ mount_tail args) := by
      rw [← hmain.2, ha]; simp
    refine ⟨hmain.1.symm, k4, w, hw, hevs, ?_⟩
    rw [hevs, hs]
    simp [countDetach, List.countP_cons, List.countP_append, is_detach_event,
      countP_detach_sleep_poll, countP_detach_mount_tail]

/-- Witness for C9: a volume in the transient `attaching` state is treated
as not attached and attached directly. -/
theorem main_not_attached_attaches_immediately_witness :
    (stateOf ((fun k => if k = 0 then [Attachment.mk "i-1" "attaching"]
        else [Attachment.mk "i-1" "attached"]) 0) ≠ "attached" ∧
      main (fun k => if k = 0 then [Attachment.mk "i-1" "attaching"]
          else [Attachment.mk "i-1" "attached"]) 5
        (Args.mk "vol-1" false "/dev/xvdf" "i-1" "" "" false "xfs") =
        some (0, [Event.describeCall "vol-1",
          Event.attachCall "vol-1" "i-1" "/dev/xvdf", Event.sleep 3,
          Event.describeCall "vol-1"])) ∧
    ((is_attached (fun k => if k = 0 then [Attachment.mk "i-1" "attaching"]
        else [Attachment.mk "i-1" "attached"]) 0 "vol-1").1 = false ∧ 0 = 0 ∧
      ∃ k4 w,
        volume_state_wait (fun k => if k = 0 then [Attachment.mk "i-1" "attaching"]
            else [Attachment.mk "i-1" "attached"]) "attached" "vol-1" 5 1 =
          some (k4, w) ∧
        [Event.describeCall "vol-1", Event.attachCall "vol-1" "i-1" "/dev/xvdf",
          Event.sleep 3, Event.describeCall "vol-1"] =
          Event.describeCall "vol-1" ::
            Event.attachCall "vol-1" "i-1" "/dev/xvdf" ::
              (w ++ mount_tail (Args.mk "vol-1" false "/dev/xvdf" "i-1" "" ""
                false "xfs")) ∧
        countDetach [Event.describeCall "vol-1",
          Event.attachCall "vol-1" "i-1" "/dev/xvdf", Event.sleep 3,
          Event.describeCall "vol-1"] = 0) :=
  ⟨⟨by decide, by decide⟩,
   main_not_attached_attaches_immediately
     (fun k => if k = 0 then [Attachment.mk "i-1" "attaching"]
       else [Attachment.mk "i-1" "attached"]) 5
     (Args.mk "vol-1" false "/dev/xvdf" "i-1" "" "" false "xfs") 0
     [Event.describeCall "vol-1", Event.attachCall "vol-1" "i-1" "/dev/xvdf",
       Event.sleep 3, Event.describeCall "vol-1"]
     (by decide) (by decide)⟩

/-- C6: every terminating run of `main` issues at most one detach call and
at most one attach call, and every detach or attach call in the trace
targets the invocation's own volume-id. -/
theorem main_at_most_one_detach_one_attach (oracle : Oracle) (fuel : Nat)
    (args : Args) (code : Nat) (evs : List Event)
    (hmain : main oracle fuel args = some (code, evs)) :
    countDetach evs ≤ 1 ∧ countAttach evs ≤ 1 ∧
    (∀ v f, Event.detachCall v f ∈ evs → v = args.volume) ∧
    (∀ v i d, Event.attachCall v i d ∈ evs → v = args.volume) := by
  rcases main_cases oracle fuel args code evs hmain with ⟨_, hevs⟩ | ⟨_, hevs⟩ |
    ⟨k3, k4, w1, w2, hw1, hw2, _, hevs⟩ | ⟨k4, w, hw, _, hevs⟩
  · subst hevs
    refine ⟨by simp [countDetach, is_detach_event], by simp [countAttach, is_attach_event], ?_, ?_⟩
    · intro v f hmem; simp at hmem
    · intro v i d hmem; simp at hmem
  · subst hevs
    refine ⟨by simp [countDetach, is_detach_event], by simp [countAttach, is_attach_event], ?_, ?_⟩
    · intro v f hmem; simp at hmem
    · intro v i d hmem; simp at hmem
  · obtain ⟨_, _, _, hs1⟩ :=
      wait_spec oracle "detached" args.volume fuel 2 k3 w1 hw1
    obtain ⟨_, _, _, hs2⟩ :=
      wait_spec oracle "attached" args.volume fuel k3 k4 w2 hw2
    subst hevs hs1 hs2
    refine ⟨?_, ?_, ?_, ?_⟩
    · simp [countDetach, List.countP_cons, List.countP_append, is_detach_event,
        countP_detach_sleep_poll, countP_detach_mount_tail]
    · simp [countAttach, List.countP_cons, List.countP_append, is_attach_event,
        countP_attach_sleep_poll, countP_attach_mount_tail]
    · intro v f hmem
      simp only [List.mem_cons, List.mem_append] at hmem
      rcases hmem with h | h | h | h | h | h | h
      · exact absurd h (by simp)
      · exact absurd h (by simp)
      · exact (Event.detachCall.injEq .. ▸ h).1 ▸ rfl
      · exact absurd h (detach_not_in_sleep_poll _ _ _ _)
      · exact absurd h (by simp)
      · exact absurd h (detach_not_in_sleep_poll _ _ _ _)
      · exact absurd h (detach_not_in_mount_tail _ _ _)
    · intro v i d hmem
      simp only [List.mem_cons, List.mem_append] at hmem
      rcases hmem with h | h | h | h | h | h | h
      · exact absurd h (by simp)
      · exact absurd h (by simp)
      · exact absurd h (by simp)
      · exact absurd h (attach_not_in_sleep_poll _ _ _ _ _)
      · exact (Event.attachCall.injEq .. ▸ h).1 ▸ rfl
      · exact absurd h (attach_not_in_sleep_poll _ _ _ _ _)
      · exact absurd h (attach_not_in_mount_tail _ _ _ _)
  · obtain ⟨_, _, _, hs⟩ :=
      wait_spec oracle "attached" args.volume fuel 1 k4 w hw
    subst hevs hs
    refine ⟨?_, ?_, ?_, ?_⟩
    · simp [countDetach, List.countP_cons, List.countP_append, is_detach_event,
        countP_detach_sleep_poll, countP_detach_mount_tail]
    · simp [countAttach, List.countP_cons, List.countP_append, is_attach_event,
        countP_attach_sleep_poll, countP_attach_mount_tail]
    · intro v f hmem
      simp only [List.mem_cons, List.mem_append] at hmem
      rcases hmem with h | h | h | h
      · exact absurd h (by simp)
      · exact absurd h (by simp)
      · exact absurd h (detach_not_in_sleep_poll _ _ _ _)
      · exact absurd h (detach_not_in_mount_tail _ _ _)
    · intro v i d hmem
      simp only [List.mem_cons, List.mem_append] at hmem
      rcases hmem with h | h | h | h
      · exact absurd h (by simp)
      · exact (Event.attachCall.injEq .. ▸ h).1 ▸ rfl
      · exact absurd h (attach_not_in_sleep_poll _ _ _ _ _)
      · exact absurd h (attach_not_in_mount_tail _ _ _ _)

/-- Witness for C6 on the exit-1 branch: one describe call, no mutation. -/
theorem main_at_most_one_detach_one_attach_witness :
    main (fun _ => [Attachment.mk "i-3" "attached"]) 3
        (Args.mk "vol-9" false "/dev/xvdf" "i-1" "" "" false "xfs") =
      some (1, [Event.describeCall "vol-9"]) ∧
    (countDetach [Event.describeCall "vol-9"] ≤ 1 ∧
      countAttach [Event.describeCall "vol-9"] ≤ 1 ∧
      (∀ v f, Event.detachCall v f ∈ [Event.describeCall "vol-9"] → v = "vol-9") ∧
      (∀ v i d, Event.attachCall v i d ∈ [Event.describeCall "vol-9"] →
        v = "vol-9")) :=
  ⟨rfl,
   main_at_most_one_detach_one_attach (fun _ => [Attachment.mk "i-3" "attached"])
     3 (Args.mk "vol-9" false "/dev/xvdf" "i-1" "" "" false "xfs") 1
     [Event.describeCall "vol-9"] rfl⟩

/-- C3: `get_volume_state` returns `"detached"` when the volume's attachment
list is empty, and otherwise returns the state field of the first listed
attachment, in the provider-given order. -/
theorem get_volume_state_first_attachment (oracle : Oracle) (k : Nat)
    (volume : String) :
    (oracle k = [] → (get_volume_state oracle k volume).1 = "detached") ∧
    ∀ a rest, oracle k = a :: rest →
      (get_volume_state oracle k volume).1 = a.State := by
  constructor
  · intro h; simp [get_volume_state, stateOf, h]
  · intro a rest h; simp [get_volume_state, stateOf, h]

/-- Witness for C3 at an empty and at a two-element attachment list. -/
theorem get_volume_state_first_attachment_witness :
    (get_volume_state (fun _ => ([] : List Attachment)) 0 "vol-1").1 =
      "detached" ∧
    (get_volume_state
        (fun _ => [Attachment.mk "i-1" "attaching", Attachment.mk "i-2" "busy"])
        0 "vol-1").1 = "attaching" :=
  ⟨(get_volume_state_first_attachment (fun _ => []) 0 "vol-1").1 rfl,
   (get_volume_state_first_attachment
      (fun _ => [Attachment.mk "i-1" "attaching", Attachment.mk "i-2" "busy"])
      0 "vol-1").2 (Attachment.mk "i-1" "attaching") [Attachment.mk "i-2" "busy"] rfl⟩

/-- C7: `is_attached_instance` scans the full attachment list and returns
true iff some attachment's instance-id equals the target; on an empty list
it returns false. -/
theorem is_attached_instance_scans_full_list (oracle : Oracle) (k : Nat)
    (volume target : String) :
    ((is_attached_instance oracle k volume target).1 = true ↔
      ∃ a ∈ oracle k, a.InstanceId = target) ∧
    (is_attached_instance (fun _ => ([] : List Attachment)) k volume target).1 =
      false := by
  constructor
  · simp [is_attached_instance, List.any_eq_true]
  · rfl

/-- Witness for C7: a list whose second (not first) entry matches the target
instance makes `is_attached_instance` return true. -/
theorem is_attached_instance_scans_full_list_witness :
    (is_attached_instance
        (fun _ => [Attachment.mk "i-9" "attached", Attachment.mk "i-1" "attached"])
        0 "vol-1" "i-1").1 = true :=
  (is_attached_instance_scans_full_list
      (fun _ => [Attachment.mk "i-9" "attached", Attachment.mk "i-1" "attached"])
      0 "vol-1" "i-1").1.mpr
    ⟨Attachment.mk "i-1" "attached", by simp, rfl⟩

/-- C8: each `fstab` call appends exactly one line of the fixed format
`UUID=<uuid>     <mount_point>     <fs_type>     defaults,noatime 1 1`, two
identical calls append two identical lines (no deduplication), and the
appended text is a single line (one newline) when the arguments contain no
newline. -/
theorem fstab_appends_fixed_format_line (table : List String) (p m f : String) :
    fstab table p m f =
      table ++
        ["UUID=" ++ p ++ "     " ++ m ++ "     " ++ f ++
          "     defaults,noatime 1 1\n"] ∧
    fstab (fstab table p m f) p m f =
      table ++
        ["UUID=" ++ p ++ "     " ++ m ++ "     " ++ f ++
          "     defaults,noatime 1 1\n",
         "UUID=" ++ p ++ "     " ++ m ++ "     " ++ f ++
          "     defaults,noatime 1 1\n"] ∧
    (p.data.count '\n' = 0 → m.data.count '\n' = 0 → f.data.count '\n' = 0 →
      (fstab_line p m f).data.count '\n' = 1) := by
  have hline : fstab_line p m f =
      "UUID=" ++ p ++ "     " ++ m ++ "     " ++ f ++
        "     defaults,noatime 1 1\n" := by
    simp [fstab_line, toString, String.append_assoc]
  refine ⟨by simp [fstab, hline], by simp [fstab, hline], ?_⟩
  intro hp hm hf
  rw [hline]
  simp only [String.data_append, List.count_append, hp, hm, hf]
  decide

/-- Witness for C8: newline-free arguments give a one-newline fstab line. -/
theorem fstab_appends_fixed_format_line_witness :
    ("abc123".data.count '\n' = 0 ∧ "/data".data.count '\n' = 0 ∧
      "xfs".data.count '\n' = 0) ∧
    (fstab_line "abc123" "/data" "xfs").data.count '\n' = 1 :=
  ⟨⟨by decide, by decide, by decide⟩,
   (fstab_appends_fixed_format_line [] "abc123" "/data" "xfs").2.2
     (by decide) (by decide) (by decide)⟩

/-- C4: a terminating run of `volume_state_wait` ends exactly at the first
poll that observes the desired state (no earlier poll observed it), and its
trace is one 3-unit sleep followed by one poll per iteration — no timeout
and no retry bound cut it short. -/
theorem volume_state_wait_returns_on_desired (oracle : Oracle)
    (desired volume : String) (fuel k kf : Nat) (evs : List Event)
    (h : volume_state_wait oracle desired volume fuel k = some (kf, evs)) :
    k < kf ∧ stateOf (oracle (kf - 1)) = desired ∧
      (∀ j, k ≤ j → j + 1 < kf → stateOf (oracle j) ≠ desired) ∧
      evs = sleep_poll_trace volume (kf - k) :=
  wait_spec oracle desired volume fuel k kf evs h

/-- The scripted oracle of C4: two polls observe `attaching`, every later
poll observes `attached`. -/
def scriptedOracle : Oracle := fun k =>
  if k < 2 then [Attachment.mk "i-1" "attaching"]
  else [Attachment.mk "i-1" "attached"]

/-- Witness for C4: on the scripted sequence attaching, attaching, attached
the waiter returns right after the third poll, with three sleep-poll
iterations in its trace. -/
theorem volume_state_wait_returns_on_desired_witness :
    volume_state_wait scriptedOracle "attached" "vol-1" 9 0 =
      some (3, sleep_poll_trace "vol-1" 3) ∧
    (0 < 3 ∧ stateOf (scriptedOracle (3 - 1)) = "attached" ∧
      (∀ j, 0 ≤ j → j + 1 < 3 → stateOf (scriptedOracle j) ≠ "attached") ∧
      sleep_poll_trace "vol-1" 3 = sleep_poll_trace "vol-1" (3 - 0)) :=
  ⟨by decide,
   volume_state_wait_returns_on_desired scriptedOracle "attached" "vol-1" 9 0 3
     (sleep_poll_trace "vol-1" 3) (by decide)⟩

/-- C10: the waiter sleeps 3 units before its first poll: when the volume is
already in the desired state it still performs one sleep and one poll, and
every terminating run's trace starts with a sleep followed by a poll. -/
theorem volume_state_wait_sleeps_before_first_poll (oracle : Oracle)
    (desired volume : String) (fuel k : Nat) (hfuel : 0 < fuel) :
    (stateOf (oracle k) = desired →
      volume_state_wait oracle desired volume fuel k =
        some (k + 1, [Event.sleep 3, Event.describeCall volume])) ∧
    ∀ kf evs, volume_state_wait oracle desired volume fuel k = some (kf, evs) →
      ∃ rest, evs = Event.sleep 3 :: Event.describeCall volume :: rest := by
  constructor
  · intro h
    cases fuel with
    | zero => omega
    | succ fuel =>
      rw [volume_state_wait]
      simp [get_volume_state, h]
  · intro kf evs h
    obtain ⟨h1, _, _, h4⟩ := wait_spec oracle desired volume fuel k kf evs h
    have : kf - k = (kf - k - 1) + 1 := by omega
    rw [this] at h4
    exact ⟨_, h4⟩

/-- Witness for C10: a volume already `attached` still costs one sleep and
one poll before the waiter returns. -/
theorem volume_state_wait_sleeps_before_first_poll_witness :
    0 < 5 ∧
    (volume_state_wait (fun _ => [Attachment.mk "i-1" "attached"]) "attached"
        "vol-1" 5 0 =
      some (1, [Event.sleep 3, Event.describeCall "vol-1"])) :=
  ⟨by decide,
   (volume_state_wait_sleeps_before_first_poll
      (fun _ => [Attachment.mk "i-1" "attached"]) "attached" "vol-1" 5 0
      (by decide)).1 rfl⟩

end AttachVolume
